import Mathlib

/-!
Verification development for the mirror-mode identity-graph pipeline.

The definitions below are a shallow embedding of the pipeline script
(the four-day variant, which also carries the three-day variant in
`index.js` as a strict subset): fixture generation, the DML helpers for
identity tables, the transition engine over the current identity graph,
the materialization query, the table-readiness probe, and the top-level
directive dispatch.  Timestamps are modelled as seconds-since-epoch
naturals; SQL string ordering and JS template-string coercion are
modelled by explicit, executable functions on character lists.
-/

namespace MirrorTools

/-- Code-point lexicographic comparison of character lists.  This models
the ordering a SQL ORDER BY applies to STRING values (and agrees with
the standard string order on the ASCII identifiers used here). -/
def charListLe : List Char → List Char → Bool
  | [], _ => true
  | _ :: _, [] => false
  | a :: as, b :: bs =>
    if a.toNat < b.toNat then true
    else if b.toNat < a.toNat then false
    else charListLe as bs

/-- String comparison used by the modelled ORDER BY clauses. -/
def strLe (a b : String) : Bool := charListLe a.data b.data

/-- Strict code-point lexicographic comparison of character lists. -/
def charListLt : List Char → List Char → Bool
  | [], [] => false
  | [], _ :: _ => true
  | _ :: _, [] => false
  | a :: as, b :: bs =>
    if a.toNat < b.toNat then true
    else if b.toNat < a.toNat then false
    else charListLt as bs

/-- Strict string comparison used by the modelled ORDER BY clauses. -/
def strLt (a b : String) : Bool := charListLt a.data b.data

/-- ASCII lower-casing of one character, modelling the JS toLowerCase
call on the ASCII directive strings used by the script. -/
def charToLower (c : Char) : Char :=
  if 65 ≤ c.toNat ∧ c.toNat ≤ 90 then Char.ofNat (c.toNat + 32) else c

/-- ASCII lower-casing of a string. -/
def strToLower (s : String) : String := String.mk (s.data.map charToLower)

/-- JS truthiness of an optional string field: null and undefined are
falsy, the empty string is falsy, every other string is truthy. -/
def jsTruthy : Option String → Bool
  | some s => s != ""
  | none => false

/-- Constant from the script: the GCP project id. -/
def GCP_PROJECT_ID : String := "mixpanel-gtm-training"

/-- Constant from the script: the main dataset name. -/
def MAIN_DATASET : String := "mirror_mode_modeling_fun"

/-- Constant from the script: the mirror snapshot dataset name. -/
def MIRROR_SNAPSHOT_DATASET : String := "mirror_mode_snapshots"

/-- One identity inside a cluster: string identity, string type tag and
a first-seen timestamp (seconds since epoch). -/
structure Identity where
  identity : String
  type : String
  first_seen : Nat
deriving DecidableEq

/-- One row of an identity table: cluster id, as-of timestamp and the
repeated identities record. -/
structure ClusterRow where
  cluster_id : String
  as_of : Nat
  identities : List Identity
deriving DecidableEq

/-- One row of the derived identity_permutations table, as produced by
the final SELECT of the materialization query.  The JSON_OBJECT payload
is modelled as a single-key association list from key to string array. -/
structure Edge where
  cluster_id : String
  as_of : Nat
  ids : List String
  on_behalf_of : String
  distinct_ids_json : List (String × List String)
deriving DecidableEq

/-- One generated source-table event row.  Timestamps are naturals; the
toISOString conversion the script applies before insert only changes the
rendering, not the instant, and is not modelled. -/
structure SourceRow where
  event : String
  anon_id : Option String
  user_id : Option String
  crm_user_id : Option String
  master_user_id : Option String
  timestamp : Nat
  identity : Option String
deriving DecidableEq

/-- The three generated source tables returned by generateTableData. -/
structure SourceTables where
  tableDataWebsite : List SourceRow
  tableDataCRM : List SourceRow
  tableDataServerLogs : List SourceRow
deriving DecidableEq

/-- The four day-keyed identity graphs returned by generateIdentities. -/
structure IdentityFixtures where
  identityGraphYesterday : List ClusterRow
  identityGraphToday : List ClusterRow
  identityGraphTomorrow : List ClusterRow
  identityGraphDayAfterTomorrow : List ClusterRow
deriving DecidableEq

/-- Start of the UTC day containing the given instant, modelling the
dayjs startOf day call. -/
def startOfDay (t : Nat) : Nat := t - t % 86400

/-- The per-row mutation generateTableData applies to every generated
event row: if anon_id is truthy set identity to it, then if user_id is
truthy set identity to it. -/
def finalizeSourceRow (row : SourceRow) : SourceRow :=
  let row1 := if jsTruthy row.anon_id then { row with identity := row.anon_id } else row
  if jsTruthy row1.user_id then { row1 with identity := row1.user_id } else row1

/-- The fixture event data generated by the script, anchored at the
start of the demo day. -/
def generateTableData (startDateObject : Nat) : SourceTables :=
  let startTime := startOfDay startDateObject
  ⟨([⟨"page view", some "foo", none, none, none, startTime + 28800, none⟩,
     ⟨"scroll", some "foo", none, none, none, startTime + 28860, none⟩,
     ⟨"click", some "foo", none, none, none, startTime + 28920, none⟩,
     ⟨"dropdown", some "foo", none, none, none, startTime + 28980, none⟩,
     ⟨"log in", none, some "bar", none, none, startTime + 29100, none⟩,
     ⟨"doing stuff", none, some "bar", none, none, startTime + 29160, none⟩,
     ⟨"doing more stuff", none, some "bar", none, none, startTime + 29220, none⟩,
     ⟨"doing even more stuff", none, some "bar", none, none, startTime + 29280, none⟩]).map
       finalizeSourceRow,
   ([⟨"lead created", none, none, some "baz", none, startTime + 43200, none⟩,
     ⟨"campaign assigned", none, none, some "baz", none, startTime + 43320, none⟩]).map
       finalizeSourceRow,
   ([⟨"server started", none, none, none, some "qux", startTime + 64800, none⟩,
     ⟨"server stopped", none, none, none, some "qux", startTime + 65100, none⟩]).map
       finalizeSourceRow⟩

/-- The four day-keyed identity graph fixtures generated by the script:
yesterday holds foo alone, today adds bar, tomorrow adds baz, and the
day after tomorrow adds qux. -/
def generateIdentities (startDateObject : Nat) : IdentityFixtures :=
  let startTime := startOfDay startDateObject
  ⟨[⟨"something_unique_123", startTime - 86400,
      [⟨"foo", "anon_id", startTime + 28800⟩]⟩],
   [⟨"something_unique_123", startTime,
      [⟨"foo", "anon_id", startTime + 28800⟩,
       ⟨"bar", "user_id", startTime + 29100⟩]⟩],
   [⟨"something_unique_123", startTime + 86400,
      [⟨"foo", "anon_id", startTime + 28800⟩,
       ⟨"bar", "user_id", startTime + 29100⟩,
       ⟨"baz", "crm_user_id", startTime + 43200⟩]⟩],
   [⟨"something_unique_123", startTime + 172800,
      [⟨"foo", "anon_id", startTime + 28800⟩,
       ⟨"bar", "user_id", startTime + 29100⟩,
       ⟨"baz", "crm_user_id", startTime + 43200⟩,
       ⟨"qux", "master_user_id", startTime + 64800⟩]⟩]⟩

/-- Default identity struct used for the (always in-range) OFFSET array
accesses of the materialization query. -/
def defaultIdentity : Identity := ⟨"", "", 0⟩

/-- The ORDER BY id.first_seen, id.identity ordering of the ids_with_idx
subquery: first_seen ascending, identity string as tiebreak. -/
def idOrder (a b : Identity) : Prop :=
  a.first_seen < b.first_seen ∨ (a.first_seen = b.first_seen ∧ strLe a.identity b.identity = true)

instance : DecidableRel idOrder := fun a b => by unfold idOrder; infer_instance

/-- The sorted_ids array computed per cluster row by the materialization
query. -/
def sortedIds (r : ClusterRow) : List Identity := List.insertionSort idOrder r.identities

/-- The ids arrays contributed by one cluster row to the pairs CTE of the
materialization query: for more than one identity, the chain pairs
indexed by GENERATE_ARRAY(1, N-1); for exactly one identity, the single
one-element array; for an empty identities array, nothing. -/
def rowIds (r : ClusterRow) : List (List String) :=
  if 1 < (sortedIds r).length then
    (List.range' 1 ((sortedIds r).length - 1)).map
      (fun i => [((sortedIds r).getD (i - 1) defaultIdentity).identity,
                 ((sortedIds r).getD i defaultIdentity).identity])
  else if (sortedIds r).length = 1 then
    [[((sortedIds r).getD 0 defaultIdentity).identity]]
  else []

/-- The edges contributed by one cluster row after the final SELECT adds
on_behalf_of as ids offset 0 and the JSON_OBJECT payload keyed by
the string dollar distinct_ids. -/
def rowEdges (r : ClusterRow) : List Edge :=
  (rowIds r).map (fun ids => ⟨r.cluster_id, r.as_of, ids, ids.getD 0 "", [("$distinct_ids", ids)]⟩)

/-- ARRAY_TO_STRING with the given separator. -/
def arrayToString (ids : List String) (sep : String) : String := String.intercalate sep ids

/-- The final ORDER BY cluster_id, as_of, ARRAY_TO_STRING(ids, comma) of
the materialization query. -/
def edgeOrder (a b : Edge) : Prop :=
  strLt a.cluster_id b.cluster_id = true ∨
    (a.cluster_id = b.cluster_id ∧
      (a.as_of < b.as_of ∨
        (a.as_of = b.as_of ∧ strLe (arrayToString a.ids ",") (arrayToString b.ids ",") = true)))

instance : DecidableRel edgeOrder := fun a b => by unfold edgeOrder; infer_instance

/-- The materialization query over the current_identity_graph rows:
every row contributes its chain pairs (or its single-identity array),
and the result table is ordered by cluster_id, as_of and the joined ids
string. -/
def materializeIdentityPermutations (current : List ClusterRow) : List Edge :=
  List.insertionSort edgeOrder ((current.map rowEdges).flatten)

/-- Written from the words of the specification, for comparison with the
implementation: sort the identities ascending by first_seen with the
identity string as tiebreak. -/
def specSortedIdentities (ids : List Identity) : List Identity := List.insertionSort idOrder ids

/-- Written from the words of the specification, for comparison with the
implementation: with S the sorted identities, emit the single-element
array when S has one element, and the |S| - 1 adjacent pairs indexed by
i in 1..|S|-1 otherwise. -/
def specEdgeIds (r : ClusterRow) : List (List String) :=
  if (specSortedIdentities r.identities).length = 1 then
    [[((specSortedIdentities r.identities).getD 0 defaultIdentity).identity]]
  else if 1 < (specSortedIdentities r.identities).length then
    (List.range' 1 ((specSortedIdentities r.identities).length - 1)).map
      (fun i => [((specSortedIdentities r.identities).getD (i - 1) defaultIdentity).identity,
                 ((specSortedIdentities r.identities).getD i defaultIdentity).identity])
  else []

/-- The state of the backing store that the transition engine and the
materializer touch: the day-keyed identity tables (keyed by the which
suffix), the current_identity_graph table (none when absent) and the
derived identity_permutations table (none when absent). -/
structure Store where
  day : String → List ClusterRow
  current : Option (List ClusterRow)
  perms : Option (List Edge)

/-- Read of the current_identity_graph table. -/
def getCurrent (s : Store) : Option (List ClusterRow) := s.current

/-- Read of the day-keyed identities table. -/
def getSnapshot (s : Store) (which : String) : List ClusterRow := s.day which

/-- The valid day keys accepted by setCurrentIdentityGraph. -/
def validGraphKeys : List String := ["yesterday", "today", "tomorrow", "day_after_tomorrow"]

/-- setCurrentIdentityGraph: validate the key, ensure the destination
table exists (creating it empty when missing), delete every row from it,
then insert every row of the day-keyed source table.  The copyOk flag
injects the outcome of the copy statement: when the backing store
rejects it, the raised error propagates and the store is left as the
preceding statements made it.  Returns the resulting store state and the
error message, if any. -/
def setCurrentRun (s : Store) (which : String) (copyOk : Bool) : Store × Option String :=
  if validGraphKeys.contains which then
    let s1 : Store := match s.current with
      | some _ => s
      | none => { s with current := some [] }
    let s2 : Store := { s1 with current := some [] }
    if copyOk then
      ({ s2 with current := some ((s2.current.getD []) ++ s2.day which) }, none)
    else (s2, some "DML copy statement failed")
  else (s, some ("Must be one of: " ++ String.intercalate ", " validGraphKeys))

/-- materializeIdentityPermutations as a store step: read the current
graph and replace the derived permutations table wholesale.  Fails (as
the underlying query would) when the current table is absent. -/
def materializeStep (s : Store) : Option Store :=
  s.current.map (fun cur => { s with perms := some (materializeIdentityPermutations cur) })

/-- Outcome of one probe insert attempted by the readiness loop. -/
inductive ProbeOutcome where
  | insertAccepted
  | notFoundErr
  | partialFailureErr
  | otherErr
deriving DecidableEq

/-- Result of running the readiness loop against a finite prefix of
probe outcomes: ready (returned true), notReady (returned false), or
stillLooping when the prefix was consumed while the loop kept going. -/
inductive ProbeResult where
  | ready
  | notReady
  | stillLooping (insertAttempt : Nat)
deriving DecidableEq

/-- The insert-probe phase of waitForTableToBeReady: while the attempt
counter is below maxInsertAttempts, try a dummy insert; a success
returns true, a 404 sleeps and increments the counter, a
PartialFailureError returns true, and any other error falls through the
catch without incrementing the counter.  After the loop, return false.
The stream of insert outcomes is supplied as a list. -/
def waitForTableToBeReadyProbe (maxInsertAttempts : Nat) :
    Nat → List ProbeOutcome → ProbeResult
  | insertAttempt, outcomes =>
    if insertAttempt < maxInsertAttempts then
      match outcomes with
      | [] => ProbeResult.stillLooping insertAttempt
      | ProbeOutcome.insertAccepted :: _ => ProbeResult.ready
      | ProbeOutcome.notFoundErr :: rest =>
          waitForTableToBeReadyProbe maxInsertAttempts (insertAttempt + 1) rest
      | ProbeOutcome.partialFailureErr :: _ => ProbeResult.ready
      | ProbeOutcome.otherErr :: rest =>
          waitForTableToBeReadyProbe maxInsertAttempts insertAttempt rest
    else ProbeResult.notReady

/-- Number of insert attempts (outcomes consumed) the probe loop
performs on the given outcome prefix. -/
def probeWritesUsed (maxInsertAttempts : Nat) : Nat → List ProbeOutcome → Nat
  | insertAttempt, outcomes =>
    if insertAttempt < maxInsertAttempts then
      match outcomes with
      | [] => 0
      | ProbeOutcome.insertAccepted :: _ => 1
      | ProbeOutcome.notFoundErr :: rest =>
          1 + probeWritesUsed maxInsertAttempts (insertAttempt + 1) rest
      | ProbeOutcome.partialFailureErr :: _ => 1
      | ProbeOutcome.otherErr :: rest =>
          1 + probeWritesUsed maxInsertAttempts insertAttempt rest
    else 0

/-- An untyped JS value as it may appear in a row object handed to the
DML serializer. -/
inductive JVal where
  | vstr (s : String)
  | vnum (n : Int)
  | vnull
  | vundef
deriving DecidableEq

/-- JS template-literal coercion of a value to a string. -/
def jsTemplateStr : JVal → String
  | JVal.vstr s => s
  | JVal.vnum n => toString n
  | JVal.vnull => "null"
  | JVal.vundef => "undefined"

/-- An identity element of a row object handed to the DML serializer,
with untyped fields just as JS passes them. -/
structure JIdentity where
  identity : JVal
  type : JVal
  first_seen : JVal
deriving DecidableEq

/-- A cluster row object handed to the DML serializer. -/
structure JClusterRow where
  cluster_id : JVal
  as_of : JVal
  identities : List JIdentity
deriving DecidableEq

/-- A single-quote character as a string. -/
def sq : String := String.mk [Char.ofNat 39]

/-- The STRUCT fragment rowToInsertSQL builds for one identity element:
the fields are interpolated into the SQL text without any validation. -/
def structSQL (id : JIdentity) : String :=
  "STRUCT(" ++ sq ++ jsTemplateStr id.identity ++ sq ++ ", " ++ sq ++ jsTemplateStr id.type
    ++ sq ++ ", TIMESTAMP(" ++ sq ++ jsTemplateStr id.first_seen ++ sq ++ "))"

/-- rowToInsertSQL: the INSERT statement text built for one cluster row
by string interpolation. -/
def rowToInsertSQL (table : String) (row : JClusterRow) : String :=
  let identitiesArray := String.intercalate ", " (row.identities.map structSQL)
  "\n    INSERT INTO `" ++ GCP_PROJECT_ID ++ "." ++ MAIN_DATASET ++ "." ++ table
    ++ "` (cluster_id, as_of, identities)\n    VALUES (\n      " ++ sq
    ++ jsTemplateStr row.cluster_id ++ sq ++ ",\n      TIMESTAMP(" ++ sq
    ++ jsTemplateStr row.as_of ++ sq ++ "),\n      [" ++ identitiesArray ++ "]\n    );\n  "

/-- The identity branch of buildTables: one INSERT statement per row,
executed in order; a rejected statement raises and aborts the loop, so
the call returns the statements that were executed before the failure
and whether the whole loop succeeded. -/
def runIdentityInserts (accept : String → Bool) (table : String) :
    List JClusterRow → List String × Bool
  | [] => ([], true)
  | row :: rest =>
    let sql := rowToInsertSQL table row
    if accept sql then
      let res := runIdentityInserts accept table rest
      (sql :: res.1, res.2)
    else ([], false)

/-- One store operation awaited by main, in program order. -/
inductive MainOp where
  | ensureDatasetOp (name : String)
  | policyBindingsOp
  | buildTablesOp
  | setCurrentOp (which : String)
  | materializeOp
  | deleteAllOp
deriving DecidableEq

/-- The directives main handles with a dedicated switch case. -/
def handledDirectives : List String :=
  ["build", "transition-today", "transition-tomorrow", "transition-day-after-tomorrow", "delete"]

/-- The DIRECTIVE environment override applied by main: a truthy env
value replaces the argument, lower-cased. -/
def effectiveDirective (envDirective directive : String) : String :=
  if envDirective != "" then strToLower envDirective else directive

/-- The sequence of store operations main awaits for a directive: both
datasets are ensured (created when absent) before the switch, then the
switch dispatches; the default case performs nothing further. -/
def mainOps (directive : String) : List MainOp :=
  [MainOp.ensureDatasetOp MAIN_DATASET, MainOp.ensureDatasetOp MIRROR_SNAPSHOT_DATASET]
    ++ (if directive = "build" then
          [MainOp.policyBindingsOp, MainOp.buildTablesOp,
           MainOp.setCurrentOp "yesterday", MainOp.materializeOp]
        else if directive = "transition-today" then
          [MainOp.setCurrentOp "today", MainOp.materializeOp]
        else if directive = "transition-tomorrow" then
          [MainOp.setCurrentOp "tomorrow", MainOp.materializeOp]
        else if directive = "transition-day-after-tomorrow" then
          [MainOp.setCurrentOp "day_after_tomorrow", MainOp.materializeOp]
        else if directive = "delete" then [MainOp.deleteAllOp]
        else [])

/-- The value main returns: the generated fixture data for the default
directive, nothing for the handled directives. -/
def mainResult (directive : String) (now : Nat) : Option (SourceTables × IdentityFixtures) :=
  if handledDirectives.contains directive then none
  else some (generateTableData (now - 7 * 86400), generateIdentities (now - 7 * 86400))

/-- ensureDataset with autoCreate: fetch the dataset, creating it when
it does not exist — a store mutation in the absent case. -/
def ensureDatasetRun (name : String) (datasets : List String) : List String :=
  if datasets.contains name then datasets else datasets ++ [name]

set_option maxRecDepth 100000

lemma length_sortedIds (r : ClusterRow) : (sortedIds r).length = r.identities.length :=
  (List.perm_insertionSort idOrder r.identities).length_eq

lemma length_rowIds (r : ClusterRow) (h : 1 ≤ r.identities.length) :
    (rowIds r).length = max (r.identities.length - 1) 1 := by
  have hs : (sortedIds r).length = r.identities.length := length_sortedIds r
  unfold rowIds
  by_cases h1 : 1 < (sortedIds r).length
  · rw [if_pos h1, List.length_map, List.length_range']
    omega
  · rw [if_neg h1]
    have he : (sortedIds r).length = 1 := by omega
    rw [if_pos he]
    simp only [List.length_cons, List.length_nil]
    omega

lemma rowIds_ne_nil (r : ClusterRow) (ids : List String) (h : ids ∈ rowIds r) : ids ≠ [] := by
  unfold rowIds at h
  by_cases h1 : 1 < (sortedIds r).length
  · rw [if_pos h1] at h
    obtain ⟨i, _, rfl⟩ := List.mem_map.mp h
    simp
  · rw [if_neg h1] at h
    by_cases he : (sortedIds r).length = 1
    · rw [if_pos he] at h
      simp at h
      subst h
      simp
    · rw [if_neg he] at h
      exact absurd h (List.not_mem_nil ids)

lemma cluster_id_of_mem_rowEdges {r : ClusterRow} {e : Edge} (h : e ∈ rowEdges r) :
    e.cluster_id = r.cluster_id := by
  unfold rowEdges at h
  obtain ⟨ids, _, rfl⟩ := List.mem_map.mp h
  rfl

lemma filter_rowEdges_self {r : ClusterRow} {cid : String} (h : (r.cluster_id == cid) = true) :
    (rowEdges r).filter (fun e => e.cluster_id == cid) = rowEdges r :=
  List.filter_eq_self.mpr (fun e he => by
    show (e.cluster_id == cid) = true
    rw [cluster_id_of_mem_rowEdges he]
    exact h)

lemma filter_rowEdges_nil {r : ClusterRow} {cid : String} (h : (r.cluster_id == cid) = false) :
    (rowEdges r).filter (fun e => e.cluster_id == cid) = [] :=
  List.filter_eq_nil_iff.mpr (fun e he => by
    show ¬ (e.cluster_id == cid) = true
    rw [cluster_id_of_mem_rowEdges he, h]
    simp)

lemma filter_flatten_rowEdges_nil (cid : String) :
    ∀ (t : List ClusterRow), t.filter (fun x => x.cluster_id == cid) = [] →
      ((t.map rowEdges).flatten).filter (fun e => e.cluster_id == cid) = [] := by
  intro t
  induction t with
  | nil => intro _; rfl
  | cons x t2 ih =>
      intro h
      rw [List.filter_cons] at h
      have hx : (x.cluster_id == cid) = false := by
        cases hx : x.cluster_id == cid
        · rfl
        · rw [if_pos hx] at h; exact absurd h (List.cons_ne_nil x _)
      rw [if_neg (by simp [hx])] at h
      rw [List.map_cons, List.flatten_cons, List.filter_append, filter_rowEdges_nil hx, ih h]
      rfl

lemma filter_flatten_rowEdges (cid : String) (rr : ClusterRow) :
    ∀ (t : List ClusterRow), t.filter (fun x => x.cluster_id == cid) = [rr] →
      ((t.map rowEdges).flatten).filter (fun e => e.cluster_id == cid) = rowEdges rr := by
  intro t
  induction t with
  | nil => intro h; exact absurd h (by simp)
  | cons x t2 ih =>
      intro h
      rw [List.filter_cons] at h
      rw [List.map_cons, List.flatten_cons, List.filter_append]
      cases hx : x.cluster_id == cid with
      | true =>
          rw [if_pos (by simp [hx])] at h
          have hx2 : x = rr := (List.cons_eq_cons.mp h).1
          have ht2 : t2.filter (fun x => x.cluster_id == cid) = [] :=
            (List.cons_eq_cons.mp h).2
          rw [filter_rowEdges_self hx, filter_flatten_rowEdges_nil cid t2 ht2, hx2,
            List.append_nil]
      | false =>
          rw [if_neg (by simp [hx])] at h
          rw [filter_rowEdges_nil hx, ih h, List.nil_append]

lemma filter_materialize (cid : String) (rr : ClusterRow) (t : List ClusterRow)
    (h : t.filter (fun x => x.cluster_id == cid) = [rr]) :
    ((materializeIdentityPermutations t).filter (fun e => e.cluster_id == cid)).Perm
      (rowEdges rr) := by
  unfold materializeIdentityPermutations
  have hp :=
    (List.perm_insertionSort edgeOrder ((t.map rowEdges).flatten)).filter
      (fun e => e.cluster_id == cid)
  rw [filter_flatten_rowEdges cid rr t h] at hp
  exact hp

lemma map_ids_rowEdges (r : ClusterRow) : (rowEdges r).map (fun e => e.ids) = rowIds r := by
  unfold rowEdges
  rw [List.map_map]
  exact List.map_id' (rowIds r)

lemma rowIds_eq_specEdgeIds (r : ClusterRow) : rowIds r = specEdgeIds r := by
  unfold rowIds specEdgeIds specSortedIdentities sortedIds
  by_cases h1 : 1 < (List.insertionSort idOrder r.identities).length
  · rw [if_pos h1, if_neg (by omega), if_pos h1]
  · rw [if_neg h1]
    by_cases he : (List.insertionSort idOrder r.identities).length = 1
    · rw [if_pos he, if_pos he]
    · rw [if_neg he, if_neg he, if_neg h1]

lemma probe_notFound_exhausts (maxA : Nat) :
    ∀ (outcomes : List ProbeOutcome) (attempt : Nat),
      (∀ o ∈ outcomes, o = ProbeOutcome.notFoundErr) → maxA ≤ attempt + outcomes.length →
      waitForTableToBeReadyProbe maxA attempt outcomes = ProbeResult.notReady := by
  intro outcomes
  induction outcomes with
  | nil =>
      intro attempt _ hlen
      unfold waitForTableToBeReadyProbe
      rw [if_neg (by simp at hlen; omega)]
  | cons o rest ih =>
      intro attempt hall hlen
      have ho : o = ProbeOutcome.notFoundErr := hall o (List.mem_cons_self o rest)
      subst ho
      unfold waitForTableToBeReadyProbe
      by_cases hlt : attempt < maxA
      · rw [if_pos hlt]
        exact ih (attempt + 1) (fun o ho => hall o (List.mem_cons_of_mem _ ho))
          (by simp at hlen ⊢; omega)
      · rw [if_neg hlt]

lemma probe_other_loops (maxA : Nat) :
    ∀ (outcomes : List ProbeOutcome) (attempt : Nat), attempt < maxA →
      (∀ o ∈ outcomes, o = ProbeOutcome.otherErr) →
      waitForTableToBeReadyProbe maxA attempt outcomes = ProbeResult.stillLooping attempt := by
  intro outcomes
  induction outcomes with
  | nil =>
      intro attempt hlt _
      unfold waitForTableToBeReadyProbe
      rw [if_pos hlt]
  | cons o rest ih =>
      intro attempt hlt hall
      have ho : o = ProbeOutcome.otherErr := hall o (List.mem_cons_self o rest)
      subst ho
      unfold waitForTableToBeReadyProbe
      rw [if_pos hlt]
      exact ih attempt hlt (fun o ho => hall o (List.mem_cons_of_mem _ ho))

/-- C1: for every cluster row of the current identity graph whose
identities array has N at least 1 elements (and whose cluster_id labels
only that row), materialization emits exactly max(N-1, 1) edge rows for
that cluster_id, and when N = 1 the single emitted edge has an ids array
of length exactly 1. -/
theorem materialize_edge_count (t : List ClusterRow) (rr : ClusterRow)
    (hrow : t.filter (fun x => x.cluster_id == rr.cluster_id) = [rr])
    (hN : 1 ≤ rr.identities.length) :
    ((materializeIdentityPermutations t).filter
        (fun e => e.cluster_id == rr.cluster_id)).length
      = max (rr.identities.length - 1) 1
    ∧ (rr.identities.length = 1 →
        ∀ e ∈ (materializeIdentityPermutations t).filter
            (fun e => e.cluster_id == rr.cluster_id),
          e.ids.length = 1) := by
  have hperm := filter_materialize rr.cluster_id rr t hrow
  constructor
  · rw [hperm.length_eq]
    unfold rowEdges
    rw [List.length_map]
    exact length_rowIds rr hN
  · intro h1 e he
    have he2 : e ∈ rowEdges rr := hperm.mem_iff.mp he
    unfold rowEdges at he2
    obtain ⟨ids, hids, rfl⟩ := List.mem_map.mp he2
    have hs : (sortedIds rr).length = 1 := by rw [length_sortedIds]; exact h1
    unfold rowIds at hids
    rw [if_neg (by omega), if_pos hs] at hids
    simp at hids
    subst hids
    rfl

/-- C1 witness: the single-identity yesterday fixture yields exactly one
edge whose ids array has length 1. -/
theorem materialize_edge_count_witness :
    ((generateIdentities 0).identityGraphYesterday.filter
        (fun x => x.cluster_id == "something_unique_123")
      = [⟨"something_unique_123", 0, [⟨"foo", "anon_id", 28800⟩]⟩])
  ∧ 1 ≤ ([⟨"foo", "anon_id", 28800⟩] : List Identity).length
  ∧ (((materializeIdentityPermutations (generateIdentities 0).identityGraphYesterday).filter
        (fun e => e.cluster_id == "something_unique_123")).length
      = max (([⟨"foo", "anon_id", 28800⟩] : List Identity).length - 1) 1
    ∧ (([⟨"foo", "anon_id", 28800⟩] : List Identity).length = 1 →
        ∀ e ∈ (materializeIdentityPermutations
              (generateIdentities 0).identityGraphYesterday).filter
            (fun e => e.cluster_id == "something_unique_123"),
          e.ids.length = 1)) :=
  ⟨by decide, by decide,
   materialize_edge_count (generateIdentities 0).identityGraphYesterday
     ⟨"something_unique_123", 0, [⟨"foo", "anon_id", 28800⟩]⟩ (by decide) (by decide)⟩

/-- C2 counterexample: on the three-identity tomorrow fixture the
materialized edge sequence is ordered by the joined ids string, namely
bar,baz before foo,bar, while the adjacent pairs of the sorted
identities are foo,bar before bar,baz — so the materialized sequence
does not reproduce the adjacent-pair order. -/
theorem materialize_order_counterexample :
    (materializeIdentityPermutations (generateIdentities 0).identityGraphTomorrow).map
        (fun e => e.ids) = [["bar", "baz"], ["foo", "bar"]]
  ∧ specEdgeIds ⟨"something_unique_123", 86400,
      [⟨"foo", "anon_id", 28800⟩, ⟨"bar", "user_id", 29100⟩, ⟨"baz", "crm_user_id", 43200⟩]⟩
      = [["foo", "bar"], ["bar", "baz"]]
  ∧ ([["bar", "baz"], ["foo", "bar"]] : List (List String))
      ≠ [["foo", "bar"], ["bar", "baz"]] := by decide

/-- C2 as amended: for every cluster row (whose cluster_id labels only
that row), the materialized edges for that cluster_id are, as a
multiset, exactly the adjacent pairs of the identities sorted ascending
by first_seen with the identity string as tiebreak — each pair listing
the earlier identity first, and no other pairs emitted — while the
emitted sequence is ordered by the joined ids string rather than by
chain position. -/
theorem materialize_edges_match_adjacent_pairs (t : List ClusterRow) (rr : ClusterRow)
    (hrow : t.filter (fun x => x.cluster_id == rr.cluster_id) = [rr]) :
    (((materializeIdentityPermutations t).filter
        (fun e => e.cluster_id == rr.cluster_id)).map (fun e => e.ids)).Perm
      (specEdgeIds rr) := by
  have hperm := (filter_materialize rr.cluster_id rr t hrow).map (fun e => e.ids)
  rw [map_ids_rowEdges, rowIds_eq_specEdgeIds] at hperm
  exact hperm

/-- C2 witness: the amended statement applied to the tomorrow fixture. -/
theorem materialize_edges_match_adjacent_pairs_witness :
    ((generateIdentities 0).identityGraphTomorrow.filter
        (fun x => x.cluster_id == "something_unique_123")
      = [⟨"something_unique_123", 86400,
          [⟨"foo", "anon_id", 28800⟩, ⟨"bar", "user_id", 29100⟩,
           ⟨"baz", "crm_user_id", 43200⟩]⟩])
  ∧ (((materializeIdentityPermutations (generateIdentities 0).identityGraphTomorrow).filter
        (fun e => e.cluster_id == "something_unique_123")).map (fun e => e.ids)).Perm
      (specEdgeIds ⟨"something_unique_123", 86400,
        [⟨"foo", "anon_id", 28800⟩, ⟨"bar", "user_id", 29100⟩,
         ⟨"baz", "crm_user_id", 43200⟩]⟩) :=
  ⟨by decide,
   materialize_edges_match_adjacent_pairs (generateIdentities 0).identityGraphTomorrow
     ⟨"something_unique_123", 86400,
       [⟨"foo", "anon_id", 28800⟩, ⟨"bar", "user_id", 29100⟩,
        ⟨"baz", "crm_user_id", 43200⟩]⟩ (by decide)⟩

/-- C3: for every valid day key, a successful setCurrent leaves the
current graph equal to the day-keyed snapshot, whatever the prior
current state was — absent, earlier or later. -/
theorem setCurrent_then_getCurrent (s : Store) (which : String)
    (hv : validGraphKeys.contains which = true) :
    (setCurrentRun s which true).2 = none
      ∧ getCurrent (setCurrentRun s which true).1 = some (getSnapshot s which) := by
  obtain ⟨day, cur, perms⟩ := s
  simp at hv
  cases cur <;> simp [setCurrentRun, getCurrent, getSnapshot, hv]

/-- C3 witness: transitioning an absent current graph to today. -/
theorem setCurrent_then_getCurrent_witness :
    validGraphKeys.contains "today" = true
  ∧ ((setCurrentRun ⟨fun _ => [], none, none⟩ "today" true).2 = none
    ∧ getCurrent (setCurrentRun ⟨fun _ => [], none, none⟩ "today" true).1
        = some (getSnapshot ⟨fun _ => [], none, none⟩ "today")) :=
  ⟨by decide, setCurrent_then_getCurrent ⟨fun _ => [], none, none⟩ "today" (by decide)⟩

/-- C4: if the copy step of a transition fails after the clear step
succeeded, the current graph is left empty — getCurrent returns the
empty row set, not the pre-transition snapshot — and the error
propagates unmasked. -/
theorem copy_failure_leaves_current_empty (s : Store) (which : String)
    (hv : validGraphKeys.contains which = true) :
    getCurrent (setCurrentRun s which false).1 = some []
      ∧ (setCurrentRun s which false).2 = some "DML copy statement failed" := by
  obtain ⟨day, cur, perms⟩ := s
  simp at hv
  cases cur <;> simp [setCurrentRun, getCurrent, hv]

/-- C4 witness: a failed copy on a store whose current graph was
nonempty before the transition still leaves it empty. -/
theorem copy_failure_leaves_current_empty_witness :
    validGraphKeys.contains "tomorrow" = true
  ∧ (getCurrent (setCurrentRun
        ⟨fun _ => [], some [⟨"c", 0, [⟨"x", "t", 1⟩]⟩], none⟩ "tomorrow" false).1
      = some []
    ∧ (setCurrentRun
        ⟨fun _ => [], some [⟨"c", 0, [⟨"x", "t", 1⟩]⟩], none⟩ "tomorrow" false).2
      = some "DML copy statement failed") :=
  ⟨by decide,
   copy_failure_leaves_current_empty
     ⟨fun _ => [], some [⟨"c", 0, [⟨"x", "t", 1⟩]⟩], none⟩ "tomorrow" (by decide)⟩

/-- C5 counterexample: with maxInsertAttempts 1, a stream of two
outcomes that are neither not-found nor content rejections makes the
probe perform 2 write attempts — more than maxInsertAttempts — and the
loop is still running rather than having returned false. -/
theorem probe_budget_counterexample :
    probeWritesUsed 1 0 [ProbeOutcome.otherErr, ProbeOutcome.otherErr] = 2
  ∧ 1 < 2
  ∧ waitForTableToBeReadyProbe 1 0 [ProbeOutcome.otherErr, ProbeOutcome.otherErr]
      = ProbeResult.stillLooping 0
  ∧ ProbeResult.stillLooping 0 ≠ ProbeResult.notReady := by decide

/-- C5 as amended: a content-level rejection (and likewise a success)
returns true immediately while the budget is not exhausted; only
not-found outcomes consume the attempt budget, and after maxAttempts
not-found outcomes the probe returns false; any other outcome is
ignored without logging and without consuming the budget, so the loop
keeps attempting writes while such outcomes persist and the number of
write attempts is not bounded by maxAttempts. -/
theorem probe_loop_behavior :
    (∀ (maxA attempt : Nat) (rest : List ProbeOutcome), attempt < maxA →
        waitForTableToBeReadyProbe maxA attempt (ProbeOutcome.partialFailureErr :: rest)
          = ProbeResult.ready)
  ∧ (∀ (maxA : Nat) (outcomes : List ProbeOutcome),
        (∀ o ∈ outcomes, o = ProbeOutcome.notFoundErr) → maxA ≤ outcomes.length →
        waitForTableToBeReadyProbe maxA 0 outcomes = ProbeResult.notReady)
  ∧ (∀ (maxA attempt : Nat) (outcomes : List ProbeOutcome), attempt < maxA →
        (∀ o ∈ outcomes, o = ProbeOutcome.otherErr) →
        waitForTableToBeReadyProbe maxA attempt outcomes
          = ProbeResult.stillLooping attempt) := by
  refine ⟨?_, ?_, ?_⟩
  · intro maxA attempt rest h
    unfold waitForTableToBeReadyProbe
    rw [if_pos h]
  · intro maxA outcomes hall hlen
    exact probe_notFound_exhausts maxA outcomes 0 hall (by omega)
  · intro maxA attempt outcomes h hall
    exact probe_other_loops maxA outcomes attempt h hall

/-- C5 witness: a content-level rejection returns true at once, and a
budget of 2 exhausted by two not-found outcomes returns false. -/
theorem probe_loop_behavior_witness :
    (0 < 20
      ∧ waitForTableToBeReadyProbe 20 0 [ProbeOutcome.partialFailureErr] = ProbeResult.ready)
  ∧ ((∀ o ∈ [ProbeOutcome.notFoundErr, ProbeOutcome.notFoundErr],
        o = ProbeOutcome.notFoundErr)
    ∧ waitForTableToBeReadyProbe 2 0 [ProbeOutcome.notFoundErr, ProbeOutcome.notFoundErr]
        = ProbeResult.notReady) :=
  ⟨⟨by decide, probe_loop_behavior.1 20 0 [] (by decide)⟩,
   ⟨by decide,
    probe_loop_behavior.2.1 2 [ProbeOutcome.notFoundErr, ProbeOutcome.notFoundErr]
      (by decide) (by decide)⟩⟩

/-- C6 counterexample: an identity element with a numeric identity, a
null type tag and a non-timestamp first_seen is serialized without any
failure — no validation happens before serialization — and when the
store rejects the second statement of a two-row snapshot, the first row
stays persisted while the call fails, so a partial snapshot is
persisted. -/
theorem insert_no_validation_counterexample :
    structSQL ⟨JVal.vnum 42, JVal.vnull, JVal.vstr "not-a-timestamp"⟩
      = "STRUCT(" ++ sq ++ "42" ++ sq ++ ", " ++ sq ++ "null" ++ sq ++ ", TIMESTAMP("
          ++ sq ++ "not-a-timestamp" ++ sq ++ "))"
  ∧ runIdentityInserts
      (fun sql => sql != rowToInsertSQL "identities_today"
        ⟨JVal.vstr "c", JVal.vstr "t", [⟨JVal.vnum 42, JVal.vnull, JVal.vstr "not-a-timestamp"⟩]⟩)
      "identities_today"
      [⟨JVal.vstr "c", JVal.vstr "t", [⟨JVal.vstr "foo", JVal.vstr "anon_id", JVal.vstr "ts"⟩]⟩,
       ⟨JVal.vstr "c", JVal.vstr "t", [⟨JVal.vnum 42, JVal.vnull, JVal.vstr "not-a-timestamp"⟩]⟩]
      = ([rowToInsertSQL "identities_today"
            ⟨JVal.vstr "c", JVal.vstr "t",
             [⟨JVal.vstr "foo", JVal.vstr "anon_id", JVal.vstr "ts"⟩]⟩],
         false) := by decide

/-- C6 as amended: no element-level validation occurs — every row is
serialized unconditionally, coercing non-string values to their string
rendering — and the rows of a snapshot are persisted one statement at a
time: the statements executed are exactly the longest accepted prefix,
and the call succeeds only when every statement is accepted, so a
failure on a later row leaves the earlier rows persisted. -/
theorem insert_rows_prefix_persistence (accept : String → Bool) (table : String)
    (rows : List JClusterRow) :
    runIdentityInserts accept table rows
      = ((rows.map (rowToInsertSQL table)).takeWhile accept,
         rows.all (fun row => accept (rowToInsertSQL table row))) := by
  induction rows with
  | nil => rfl
  | cons r rest ih =>
      unfold runIdentityInserts
      cases ha : accept (rowToInsertSQL table r) with
      | true => simp [List.takeWhile_cons, List.all_cons, ha, ih]
      | false => simp [List.takeWhile_cons, List.all_cons, ha]

/-- C7: every materialized edge has on_behalf_of equal to the first
element of its ids array and a structured payload mapping the
dollar distinct_ids key to exactly its ids array. -/
theorem edge_on_behalf_of_and_payload (t : List ClusterRow) (e : Edge)
    (he : e ∈ materializeIdentityPermutations t) :
    e.ids.head? = some e.on_behalf_of
      ∧ e.distinct_ids_json = [("$distinct_ids", e.ids)] := by
  unfold materializeIdentityPermutations at he
  rw [List.mem_insertionSort, List.mem_flatten] at he
  obtain ⟨l, hl, hel⟩ := he
  obtain ⟨r, _, rfl⟩ := List.mem_map.mp hl
  unfold rowEdges at hel
  obtain ⟨ids, hids, rfl⟩ := List.mem_map.mp hel
  have hne := rowIds_ne_nil r ids hids
  cases ids with
  | nil => exact absurd rfl hne
  | cons a as => exact ⟨rfl, rfl⟩

/-- C7 witness: the single edge materialized from the today fixture
carries on_behalf_of foo and the distinct_ids payload. -/
theorem edge_on_behalf_of_and_payload_witness :
    (⟨"something_unique_123", 0, ["foo", "bar"], "foo",
        [("$distinct_ids", ["foo", "bar"])]⟩ : Edge)
      ∈ materializeIdentityPermutations (generateIdentities 0).identityGraphToday
  ∧ ((⟨"something_unique_123", 0, ["foo", "bar"], "foo",
        [("$distinct_ids", ["foo", "bar"])]⟩ : Edge).ids.head?
      = some (⟨"something_unique_123", 0, ["foo", "bar"], "foo",
          [("$distinct_ids", ["foo", "bar"])]⟩ : Edge).on_behalf_of
    ∧ (⟨"something_unique_123", 0, ["foo", "bar"], "foo",
        [("$distinct_ids", ["foo", "bar"])]⟩ : Edge).distinct_ids_json
      = [("$distinct_ids",
          (⟨"something_unique_123", 0, ["foo", "bar"], "foo",
            [("$distinct_ids", ["foo", "bar"])]⟩ : Edge).ids)]) :=
  ⟨by decide,
   edge_on_behalf_of_and_payload (generateIdentities 0).identityGraphToday
     ⟨"something_unique_123", 0, ["foo", "bar"], "foo",
       [("$distinct_ids", ["foo", "bar"])]⟩ (by decide)⟩

/-- C8 counterexample: on a directive main does not handle, the
operations awaited are still the two ensure-dataset calls, and ensuring
a missing dataset creates it — a mutation of the backing store. -/
theorem default_directive_mutates_datasets :
    mainOps "noop" = [MainOp.ensureDatasetOp "mirror_mode_modeling_fun",
        MainOp.ensureDatasetOp "mirror_mode_snapshots"]
  ∧ ensureDatasetRun "mirror_mode_modeling_fun" [] = ["mirror_mode_modeling_fun"]
  ∧ (["mirror_mode_modeling_fun"] : List String) ≠ ([] : List String) := by decide

/-- C8 as amended: for every directive that is not build, a transition
directive or delete, main returns the generated fixture data and
performs no table-level operation, but it does ensure the two datasets
before dispatch — an operation that creates a dataset when it is
absent, hence a store mutation in that case (and a failure point when
the ensure fails). -/
theorem default_directive_behavior (d : String) (now : Nat)
    (hd : handledDirectives.contains d = false) :
    mainOps d = [MainOp.ensureDatasetOp MAIN_DATASET,
        MainOp.ensureDatasetOp MIRROR_SNAPSHOT_DATASET]
  ∧ mainResult d now
      = some (generateTableData (now - 7 * 86400), generateIdentities (now - 7 * 86400)) := by
  have h1 : ¬ d = "build" := fun h => absurd (h ▸ hd) (by decide)
  have h2 : ¬ d = "transition-today" := fun h => absurd (h ▸ hd) (by decide)
  have h3 : ¬ d = "transition-tomorrow" := fun h => absurd (h ▸ hd) (by decide)
  have h4 : ¬ d = "transition-day-after-tomorrow" := fun h => absurd (h ▸ hd) (by decide)
  have h5 : ¬ d = "delete" := fun h => absurd (h ▸ hd) (by decide)
  constructor
  · unfold mainOps
    rw [if_neg h1, if_neg h2, if_neg h3, if_neg h4, if_neg h5]
    rfl
  · unfold mainResult
    rw [hd]
    rfl

/-- C8 witness: the amended statement applied to the directive noop. -/
theorem default_directive_behavior_witness :
    handledDirectives.contains "noop" = false
  ∧ (mainOps "noop" = [MainOp.ensureDatasetOp MAIN_DATASET,
        MainOp.ensureDatasetOp MIRROR_SNAPSHOT_DATASET]
    ∧ mainResult "noop" 0
        = some (generateTableData (0 - 7 * 86400), generateIdentities (0 - 7 * 86400))) :=
  ⟨by decide, default_directive_behavior "noop" 0 (by decide)⟩

/-- C9: a second materialization step on the store a first one produced
succeeds and returns the very same store — same derived rows, same
values, same order — since the current graph is unchanged. -/
theorem materialize_idempotent (s s2 : Store) (h : materializeStep s = some s2) :
    materializeStep s2 = some s2 := by
  obtain ⟨day, cur, perms⟩ := s
  cases cur with
  | none => simp [materializeStep] at h
  | some c =>
      simp [materializeStep] at h
      subst h
      rfl

/-- C9 witness: materializing twice from an empty current graph. -/
theorem materialize_idempotent_witness :
    materializeStep ⟨fun _ => [], some [], none⟩ = some ⟨fun _ => [], some [], some []⟩
  ∧ materializeStep ⟨fun _ => [], some [], some []⟩ = some ⟨fun _ => [], some [], some []⟩ :=
  ⟨rfl, materialize_idempotent ⟨fun _ => [], some [], none⟩ ⟨fun _ => [], some [], some []⟩ rfl⟩

/-- C10: for every string outside the valid day-key list, the transition
throws an error naming the valid keys before performing any store
operation, leaving the whole store — current graph, day-keyed snapshots
and derived permutations — unchanged. -/
theorem invalid_daykey_rejected (s : Store) (which : String) (copyOk : Bool)
    (hv : validGraphKeys.contains which = false) :
    setCurrentRun s which copyOk
      = (s, some "Must be one of: yesterday, today, tomorrow, day_after_tomorrow") := by
  unfold setCurrentRun
  rw [hv]
  rfl

/-- C10 witness: the key nextweek is rejected with the listing error
and the store is returned untouched. -/
theorem invalid_daykey_rejected_witness :
    validGraphKeys.contains "nextweek" = false
  ∧ setCurrentRun ⟨fun _ => [], none, none⟩ "nextweek" true
      = (⟨fun _ => [], none, none⟩,
         some "Must be one of: yesterday, today, tomorrow, day_after_tomorrow") :=
  ⟨by decide, invalid_daykey_rejected ⟨fun _ => [], none, none⟩ "nextweek" true (by decide)⟩

end MirrorTools
